import Mathlib

/-
Verification of the overlay-geometry engine of the pdf-highlighter app.

The embedding below translates the core functions of the source
(`polygonsToRects`, `rectToPdfPoints`, `rectToViewport`,
`parseUploadedAzureJson`, `updateRect`) into Lean. JavaScript numbers are
modelled as rationals (ℚ) where all values are finite; a separate `JSNum`
type models the non-finite values (NaN, ±Infinity) for the projector, and a
`JSVal` type models untyped JSON-like values for the ingestion parser.
-/

/-- The three rectangle unit systems (`RectUnit` in the source):
fractional inches (top-left origin), normalized 0..1 ratio of the page
dimensions (top-left origin), and absolute PDF points (bottom-left origin). -/
inductive RectUnit where
  | inch
  | ratio
  | pdf
deriving Repr, DecidableEq

/-- Rectangle record (`BBoxRect` in the source). -/
structure BBoxRect where
  id : String
  page : ℚ
  x : ℚ
  y : ℚ
  width : ℚ
  height : ℚ
  unit : RectUnit
  label : Option String := none
  color : Option String := none
deriving Repr, DecidableEq

/-- Page geometry in absolute page-space points (`pageSizePts` in the source). -/
structure PageSize where
  width : ℚ
  height : ℚ
deriving Repr, DecidableEq

/-- PDF user-space box `{left, bottom, right, top}` returned by
`rectToPdfPoints` in the source. -/
structure PdfBox where
  left : ℚ
  bottom : ℚ
  right : ℚ
  top : ℚ
deriving Repr, DecidableEq

/-- `rectToPdfPoints` from the source: converts a rect (inch/ratio/pdf) to
PDF user-space points. `pdf` is a passthrough; `inch` multiplies by 72 then
flips the vertical axis against the page height; `ratio` scales by page
width/height then flips the same way. -/
def rectToPdfPoints (rect : BBoxRect) (pageSizePts : PageSize) : PdfBox :=
  match rect.unit with
  | .pdf =>
    { left := rect.x
      bottom := rect.y
      right := rect.x + rect.width
      top := rect.y + rect.height }
  | .inch =>
    let leftInPts := rect.x * 72
    let topInPts := rect.y * 72
    let rightInPts := (rect.x + rect.width) * 72
    let bottomInPts := (rect.y + rect.height) * 72
    let h := pageSizePts.height
    { left := leftInPts, right := rightInPts, bottom := h - bottomInPts, top := h - topInPts }
  | .ratio =>
    let leftPts := rect.x * pageSizePts.width
    let topPts := rect.y * pageSizePts.height
    let rightPts := (rect.x + rect.width) * pageSizePts.width
    let bottomPts := (rect.y + rect.height) * pageSizePts.height
    let h := pageSizePts.height
    { left := leftPts, right := rightPts, bottom := h - bottomPts, top := h - topPts }

/-- Viewport-space box `{left, top, width, height}` (CSS px, top-left origin)
returned by `rectToViewport` in the source. -/
structure ViewportBox where
  left : ℚ
  top : ℚ
  width : ℚ
  height : ℚ
deriving Repr, DecidableEq

/-- `rectToViewport` from the source, over finite coordinates: converts the
rect to PDF points, maps the corners `(left, top)` and `(right, bottom)`
through the viewport's `convertToViewportPoint`, and returns the min/abs
bounding box of the two mapped points. -/
def rectToViewport (rect : BBoxRect) (convertToViewportPoint : ℚ → ℚ → ℚ × ℚ)
    (pageSizePts : PageSize) : ViewportBox :=
  let b := rectToPdfPoints rect pageSizePts
  let v1 := convertToViewportPoint b.left b.top
  let v2 := convertToViewportPoint b.right b.bottom
  { left := min v1.1 v2.1
    top := min v1.2 v2.2
    width := |v2.1 - v1.1|
    height := |v2.2 - v1.2| }

/-- A JavaScript number: either a finite value (modelled as a rational) or
one of the non-finite values NaN, +Infinity, -Infinity. -/
inductive JSNum where
  | fin (q : ℚ)
  | nan
  | posInf
  | negInf
deriving Repr, DecidableEq

/-- JavaScript `Math.min` on two numbers: NaN-propagating, with -Infinity
below every value. -/
def JSNum.min2 : JSNum → JSNum → JSNum
  | .nan, _ => .nan
  | _, .nan => .nan
  | .negInf, _ => .negInf
  | _, .negInf => .negInf
  | .posInf, b => b
  | a, .posInf => a
  | .fin a, .fin b => .fin (min a b)

/-- JavaScript `Math.max` on two numbers: NaN-propagating, with +Infinity
above every value. -/
def JSNum.max2 : JSNum → JSNum → JSNum
  | .nan, _ => .nan
  | _, .nan => .nan
  | .posInf, _ => .posInf
  | _, .posInf => .posInf
  | .negInf, b => b
  | a, .negInf => a
  | .fin a, .fin b => .fin (max a b)

/-- JavaScript subtraction: NaN-propagating; same-signed infinities cancel
to NaN, otherwise an infinite operand dominates. -/
def JSNum.sub : JSNum → JSNum → JSNum
  | .nan, _ => .nan
  | _, .nan => .nan
  | .posInf, .posInf => .nan
  | .posInf, _ => .posInf
  | .negInf, .negInf => .nan
  | .negInf, _ => .negInf
  | .fin _, .posInf => .negInf
  | .fin _, .negInf => .posInf
  | .fin a, .fin b => .fin (a - b)

/-- JavaScript `Math.abs`: NaN stays NaN, both infinities map to +Infinity. -/
def JSNum.abs : JSNum → JSNum
  | .nan => .nan
  | .posInf => .posInf
  | .negInf => .posInf
  | .fin q => .fin |q|

/-- `Number.isFinite`: true exactly on finite values. -/
def JSNum.isFinite : JSNum → Bool
  | .fin _ => true
  | _ => false

/-- Viewport-space box whose pixel coordinates are JavaScript numbers,
as produced by `rectToViewport` when the viewport transform yields
non-finite values. -/
structure ViewportBoxJS where
  left : JSNum
  top : JSNum
  width : JSNum
  height : JSNum
deriving Repr, DecidableEq

/-- `rectToViewport` from the source over JavaScript number semantics: the
page-space corners are finite (the rect's fields), but the viewport's
`convertToViewportPoint` may return non-finite pixel coordinates. The
function applies `Math.min` / `Math.abs` to whatever the transform returns
and contains no finiteness check and no error path. -/
def rectToViewportJS (rect : BBoxRect) (convertToViewportPoint : ℚ → ℚ → JSNum × JSNum)
    (pageSizePts : PageSize) : ViewportBoxJS :=
  let b := rectToPdfPoints rect pageSizePts
  let v1 := convertToViewportPoint b.left b.top
  let v2 := convertToViewportPoint b.right b.bottom
  { left := JSNum.min2 v1.1 v2.1
    top := JSNum.min2 v1.2 v2.2
    width := JSNum.abs (JSNum.sub v2.1 v1.1)
    height := JSNum.abs (JSNum.sub v2.2 v1.2) }

/-- An untyped JavaScript value as handed to the ingestion parser: the JSON
value constructors plus `undefined` (the result of accessing an absent
property). JSON numeric leaves are finite, hence carried as rationals. -/
inductive JSVal where
  | undefined
  | null
  | bool (b : Bool)
  | num (q : ℚ)
  | str (s : String)
  | arr (xs : List JSVal)
  | obj (fields : List (String × JSVal))
deriving Repr

/-- Property access `v?.name` / `v.name`: field lookup on objects, and
`undefined` on everything else (including `null`/`undefined` via optional
chaining, and primitives, which have none of the properties used here). -/
def jsGetField : JSVal → String → JSVal
  | .obj fs, name =>
    match fs.find? (fun f => f.1 == name) with
    | some f => f.2
    | none => .undefined
  | _, _ => .undefined

/-- Index access `v?.[i]` / `v[i]`: element lookup on arrays, `undefined`
otherwise and out of bounds. -/
def jsIndex : JSVal → Nat → JSVal
  | .arr xs, i => xs.getD i .undefined
  | _, _ => .undefined

/-- The nullish-coalescing operator `a ?? b`. -/
def jsCoalesce (a b : JSVal) : JSVal :=
  match a with
  | .undefined => b
  | .null => b
  | _ => a

/-- JavaScript truthiness of a value (no NaN case: JSON numeric leaves are
finite). Arrays and objects are always truthy. -/
def jsTruthy : JSVal → Bool
  | .undefined => false
  | .null => false
  | .bool b => b
  | .num q => q != 0
  | .str s => s != ""
  | .arr _ => true
  | .obj _ => true

/-- Whether a value is an array (`Array.isArray`). -/
def JSVal.isArr : JSVal → Bool
  | .arr _ => true
  | _ => false

/-- JavaScript `ToNumber` coercion as applied by `Math.min`/`Math.max` to
the polygon entries: numbers pass through, `undefined` becomes NaN, `null`
becomes 0, booleans become 0/1. Strings, arrays and objects (whose numeric
coercion goes through string conversion and never arises for JSON numeric
polygon data) are modelled as NaN. -/
def jsToNumber : JSVal → JSNum
  | .num q => .fin q
  | .undefined => .nan
  | .null => .fin 0
  | .bool b => .fin (if b then 1 else 0)
  | .str _ => .nan
  | .arr _ => .nan
  | .obj _ => .nan

/-- Iteration `for (const x of v)`: arrays iterate their elements, strings
iterate their characters (as one-character strings); every other value is
not iterable and makes the loop throw a TypeError. -/
def jsIterate : JSVal → Except Unit (List JSVal)
  | .arr xs => .ok xs
  | .str s => .ok (s.data.map (fun c => .str (String.mk [c])))
  | _ => .error ()

/-- A rectangle record as emitted by `parseUploadedAzureJson` in the source:
`page` and `label` are stored as the raw JavaScript values the code reads
(`w.page ?? page ?? 1`, `w.name`), and the coordinates are JavaScript
numbers computed by `Math.min`/`Math.max` over the polygon entries. The
source also stores a randomly generated `id` (from an external UUID source),
which carries no geometric information and is not modelled. -/
structure ParsedRect where
  page : JSVal
  x : JSNum
  y : JSNum
  width : JSNum
  height : JSNum
  unit : RectUnit
  label : JSVal
deriving Repr

/-- The per-word body of `parseUploadedAzureJson`'s innermost loop: skip the
word (`continue`) unless `w?.polygon` is truthy and an array, else push a
rect whose coordinates are the min/max of polygon entries 0,2,4,6 (x) and
1,3,5,7 (y), with `page: w.page ?? pageCtx ?? 1`, `unit: "inch"`, and
`label: w.name`. -/
def parseWord (pageCtx : JSVal) (w : JSVal) : Option ParsedRect :=
  let poly := jsGetField w "polygon"
  if !(jsTruthy poly) || !(poly.isArr) then none
  else
    let n := fun i => jsToNumber (jsIndex poly i)
    let minX := JSNum.min2 (JSNum.min2 (JSNum.min2 (n 0) (n 2)) (n 4)) (n 6)
    let maxX := JSNum.max2 (JSNum.max2 (JSNum.max2 (n 0) (n 2)) (n 4)) (n 6)
    let minY := JSNum.min2 (JSNum.min2 (JSNum.min2 (n 1) (n 3)) (n 5)) (n 7)
    let maxY := JSNum.max2 (JSNum.max2 (JSNum.max2 (n 1) (n 3)) (n 5)) (n 7)
    some
      { page := jsCoalesce (jsGetField w "page") (jsCoalesce pageCtx (.num 1))
        x := minX
        y := minY
        width := JSNum.sub maxX minX
        height := JSNum.sub maxY minY
        unit := RectUnit.inch
        label := jsGetField w "name" }

/-- The `for (const w of words)` loop body: words failing the polygon guard
are skipped, the rest are pushed in order. -/
def parseWords (pageCtx : JSVal) (ws : List JSVal) : List ParsedRect :=
  ws.filterMap (parseWord pageCtx)

/-- One `matchingWords` entry `m`: computes the page context
`m?.page ?? m?.words?.[0]?.page`, then iterates `m?.words ?? []` (throwing
if that value is not iterable). -/
def parseMatch (m : JSVal) : Except Unit (List ParsedRect) := do
  let pageCtx := jsCoalesce (jsGetField m "page")
    (jsGetField (jsIndex (jsGetField m "words") 0) "page")
  let ws ← jsIterate (jsCoalesce (jsGetField m "words") (.arr []))
  return parseWords pageCtx ws

/-- Sequences the matches of one result group, concatenating their rects;
the first thrown TypeError aborts the whole parse, as in the source. -/
def parseMatches : List JSVal → Except Unit (List ParsedRect)
  | [] => .ok []
  | m :: ms => do
    let rs ← parseMatch m
    let rest ← parseMatches ms
    return rs ++ rest

/-- One `analysisResult` entry `res`: iterates `res?.matchingWords ?? []`. -/
def parseResult (res : JSVal) : Except Unit (List ParsedRect) := do
  let ms ← jsIterate (jsCoalesce (jsGetField res "matchingWords") (.arr []))
  parseMatches ms

/-- Sequences the result groups. -/
def parseResults : List JSVal → Except Unit (List ParsedRect)
  | [] => .ok []
  | r :: rs => do
    let a ← parseResult r
    let rest ← parseResults rs
    return a ++ rest

/-- `parseUploadedAzureJson` from the source: iterates
`raw?.analysisResult ?? []`, then each group's matches, then each match's
words, accumulating one rect per word that passes the polygon guard. A
`for...of` over a non-iterable container value throws (`Except.error`). -/
def parseUploadedAzureJson (raw : JSVal) : Except Unit (List ParsedRect) := do
  let results ← jsIterate (jsCoalesce (jsGetField raw "analysisResult") (.arr []))
  parseResults results

/-- Input item for `polygonsToRects` in the source
(`{ page, polygon, label? }`); `polygon : Option` models a missing
(`undefined`/`null`) polygon caught by the `!p` guard. -/
structure PolyItem where
  page : ℚ
  polygon : Option (List ℚ)
  label : Option String := none
deriving Repr, DecidableEq

/-- The per-item body of `polygonsToRects`'s map: throws
`"Polygon must have 4 points (8 values)"` when the polygon is missing or has
fewer than 8 values, else returns the axis-aligned bounding box of entries
0,2,4,6 (x) and 1,3,5,7 (y), with id `poly-<page>-<idx>`. -/
def polygonToRect (u : RectUnit) (idx : Nat) (it : PolyItem) : Except String BBoxRect :=
  match it.polygon with
  | none => .error "Polygon must have 4 points (8 values)"
  | some p =>
    if p.length < 8 then .error "Polygon must have 4 points (8 values)"
    else
      let minX := min (min (min (p.getD 0 0) (p.getD 2 0)) (p.getD 4 0)) (p.getD 6 0)
      let maxX := max (max (max (p.getD 0 0) (p.getD 2 0)) (p.getD 4 0)) (p.getD 6 0)
      let minY := min (min (min (p.getD 1 0) (p.getD 3 0)) (p.getD 5 0)) (p.getD 7 0)
      let maxY := max (max (max (p.getD 1 0) (p.getD 3 0)) (p.getD 5 0)) (p.getD 7 0)
      .ok
        { id := "poly-" ++ toString it.page ++ "-" ++ toString idx
          page := it.page
          x := minX
          y := minY
          width := maxX - minX
          height := maxY - minY
          unit := u
          label := it.label
          color := none }

/-- `items.map(...)` with a throwing body, processed left to right from
running index `idx`: the first throw aborts the whole call. -/
def polygonsToRectsFrom (u : RectUnit) (idx : Nat) :
    List PolyItem → Except String (List BBoxRect)
  | [] => .ok []
  | it :: rest => do
    let r ← polygonToRect u idx it
    let rs ← polygonsToRectsFrom u (idx + 1) rest
    return r :: rs

/-- `polygonsToRects` from the source: converts each `{page, polygon, label}`
item to a `BBoxRect` with the given unit; a missing or short polygon anywhere
throws and no list is returned. -/
def polygonsToRects (items : List PolyItem) (u : RectUnit) : Except String (List BBoxRect) :=
  polygonsToRectsFrom u 0 items

/-- A field patch as passed to `updateRect` (`Partial<BBoxRect>` in the
source): any subset of the record's fields, each either absent (`none`) or
supplying a new value. -/
structure RectPatch where
  id : Option String := none
  page : Option ℚ := none
  x : Option ℚ := none
  y : Option ℚ := none
  width : Option ℚ := none
  height : Option ℚ := none
  unit : Option RectUnit := none
  label : Option String := none
  color : Option String := none
deriving Repr, DecidableEq

/-- The object spread `{ ...r, ...patch }`: fields present in the patch
overwrite the record's, absent fields are kept. -/
def applyPatch (r : BBoxRect) (patch : RectPatch) : BBoxRect :=
  { id := patch.id.getD r.id
    page := patch.page.getD r.page
    x := patch.x.getD r.x
    y := patch.y.getD r.y
    width := patch.width.getD r.width
    height := patch.height.getD r.height
    unit := patch.unit.getD r.unit
    label := match patch.label with | some s => some s | none => r.label
    color := match patch.color with | some s => some s | none => r.color }

/-- `updateRect` from the source:
`prev.map(r => r.id === id ? { ...r, ...patch } : r)`. -/
def updateRect (rects : List BBoxRect) (rid : String) (patch : RectPatch) : List BBoxRect :=
  rects.map (fun r => if r.id = rid then applyPatch r patch else r)

/-- A document whose `analysisResult` is a number: `for...of` over it throws. -/
def docNonIterable : JSVal := .obj [("analysisResult", .num 5)]

/-- A document with a single word whose polygon is an array of only 3
numbers (shorter than the 8 the format prescribes). -/
def docShortPolygon : JSVal :=
  .obj [("analysisResult", .arr [
    .obj [("matchingWords", .arr [
      .obj [("words", .arr [
        .obj [("polygon", .arr [.num 1, .num 1, .num 1])]
      ])]
    ])]
  ])]

/-- The polygon `[1,1,3,1,3,2,1,2]` (a 2×1 box) as a JSON value. -/
def poly8 : JSVal :=
  .arr [.num 1, .num 1, .num 3, .num 1, .num 3, .num 2, .num 1, .num 2]

/-- A document whose single match has no `page` field; its first word
carries `page: 5` and its second word carries no page at all. -/
def docPageFallback : JSVal :=
  .obj [("analysisResult", .arr [
    .obj [("matchingWords", .arr [
      .obj [("words", .arr [
        .obj [("page", .num 5), ("polygon", poly8)],
        .obj [("polygon", poly8)]
      ])]
    ])]
  ])]

/-- C1: for every rectangle with unit `inch` and every page size,
`rectToPdfPoints` multiplies each field by 72 and flips the vertical axis
against the page height: `left = 72*x`, `right = 72*(x+width)`,
`top = height - 72*y`, `bottom = height - 72*(y+height)`. -/
theorem c1_inch_conversion (rect : BBoxRect) (pageSize : PageSize)
    (h : rect.unit = RectUnit.inch) :
    rectToPdfPoints rect pageSize =
      { left := 72 * rect.x
        bottom := pageSize.height - 72 * (rect.y + rect.height)
        right := 72 * (rect.x + rect.width)
        top := pageSize.height - 72 * rect.y } := by
  simp only [rectToPdfPoints, h]
  simp only [PdfBox.mk.injEq]
  refine ⟨by ring_nf, by ring_nf, by ring_nf, by ring_nf⟩

/-- C1 witness: converting `{x=1, y=1, width=2, height=1}` in inches against
page `{width:612, height:792}` yields `{left:72, right:216, bottom:648, top:720}`. -/
theorem c1_inch_conversion_witness :
    rectToPdfPoints ⟨"t1", 1, 1, 1, 2, 1, RectUnit.inch, none, none⟩ ⟨612, 792⟩ =
      { left := 72, bottom := 648, right := 216, top := 720 } := by
  rw [c1_inch_conversion ⟨"t1", 1, 1, 1, 2, 1, RectUnit.inch, none, none⟩ ⟨612, 792⟩ rfl]
  norm_num [PdfBox.mk.injEq]

/-- C2: for every rectangle with unit `ratio` and every page size,
`rectToPdfPoints` first scales x/width by the page width and y/height by the
page height, then applies the same vertical flip as the inch case. -/
theorem c2_ratio_conversion (rect : BBoxRect) (pageSize : PageSize)
    (h : rect.unit = RectUnit.ratio) :
    rectToPdfPoints rect pageSize =
      { left := rect.x * pageSize.width
        bottom := pageSize.height - (rect.y + rect.height) * pageSize.height
        right := (rect.x + rect.width) * pageSize.width
        top := pageSize.height - rect.y * pageSize.height } := by
  simp only [rectToPdfPoints, h]

/-- C2 witness: converting `{x=0.5, y=0.5, width=0.25, height=0.25}` in ratio
units against page `{width:612, height:792}` yields
`{left:306, right:459, bottom:198, top:396}`. -/
theorem c2_ratio_conversion_witness :
    rectToPdfPoints ⟨"t2", 1, 0.5, 0.5, 0.25, 0.25, RectUnit.ratio, none, none⟩ ⟨612, 792⟩ =
      { left := 306, bottom := 198, right := 459, top := 396 } := by
  rw [c2_ratio_conversion ⟨"t2", 1, 0.5, 0.5, 0.25, 0.25, RectUnit.ratio, none, none⟩
    ⟨612, 792⟩ rfl]
  norm_num [PdfBox.mk.injEq]

/-- C3: for every rectangle with unit `pdf`, `rectToPdfPoints` is the
identity map with no vertical flip — `left = x`, `bottom = y`,
`right = x+width`, `top = y+height` — independent of the page size. -/
theorem c3_pdf_passthrough (rect : BBoxRect) (pageSize pageSize2 : PageSize)
    (h : rect.unit = RectUnit.pdf) :
    rectToPdfPoints rect pageSize =
      { left := rect.x
        bottom := rect.y
        right := rect.x + rect.width
        top := rect.y + rect.height } ∧
    rectToPdfPoints rect pageSize = rectToPdfPoints rect pageSize2 := by
  simp [rectToPdfPoints, h]

/-- C3 witness: a pdf-unit rectangle `{x=10, y=20, width=30, height=40}` is
passed through unchanged — `{left:10, bottom:20, right:40, top:60}` — and the
result does not depend on the page size. -/
theorem c3_pdf_passthrough_witness :
    rectToPdfPoints ⟨"t3", 1, 10, 20, 30, 40, RectUnit.pdf, none, none⟩ ⟨612, 792⟩ =
      { left := 10, bottom := 20, right := 40, top := 60 } ∧
    rectToPdfPoints ⟨"t3", 1, 10, 20, 30, 40, RectUnit.pdf, none, none⟩ ⟨612, 792⟩ =
      rectToPdfPoints ⟨"t3", 1, 10, 20, 30, 40, RectUnit.pdf, none, none⟩ ⟨100, 100⟩ := by
  have h := c3_pdf_passthrough ⟨"t3", 1, 10, 20, 30, 40, RectUnit.pdf, none, none⟩
    ⟨612, 792⟩ ⟨100, 100⟩ rfl
  refine ⟨h.1.trans ?_, h.2⟩
  norm_num [PdfBox.mk.injEq]

/-- C4 counterexample: with page height 0 and unit `inch`, `rectToPdfPoints`
silently returns the numeric box `{left:72, bottom:-144, right:216, top:-72}`
for `{x=1, y=1, width=2, height=1}`; it performs no page-geometry check and
raises no `InvalidPageGeometry` error (its result type has no error case). -/
theorem c4_counterexample :
    rectToPdfPoints ⟨"t1", 1, 1, 1, 2, 1, RectUnit.inch, none, none⟩ ⟨612, 0⟩ =
      { left := 72, bottom := -144, right := 216, top := -72 } := by
  simp only [rectToPdfPoints]
  norm_num [PdfBox.mk.injEq]

/-- C4 amended: `rectToPdfPoints` performs no validation of the page
geometry. For a degenerate page of height 0 it still returns a numeric box:
for `inch` the flip against height 0 yields negated point values, and for
`ratio` it collapses the vertical extent to 0. -/
theorem c4_no_geometry_check (rect : BBoxRect) (pageSize : PageSize)
    (h0 : pageSize.height = 0) :
    (rect.unit = RectUnit.inch →
      rectToPdfPoints rect pageSize =
        { left := rect.x * 72
          bottom := -((rect.y + rect.height) * 72)
          right := (rect.x + rect.width) * 72
          top := -(rect.y * 72) }) ∧
    (rect.unit = RectUnit.ratio →
      rectToPdfPoints rect pageSize =
        { left := rect.x * pageSize.width
          bottom := 0
          right := (rect.x + rect.width) * pageSize.width
          top := 0 }) := by
  constructor
  · intro h
    simp only [rectToPdfPoints, h, h0]
    simp only [PdfBox.mk.injEq]
    refine ⟨by ring_nf, by ring_nf, by ring_nf, by ring_nf⟩
  · intro h
    simp only [rectToPdfPoints, h, h0]
    simp only [PdfBox.mk.injEq]
    refine ⟨by ring_nf, by ring_nf, by ring_nf, by ring_nf⟩

/-- C4 amended witness: at `{x=1, y=1, width=2, height=1}` in inches against
a degenerate page `{width:612, height:0}`, the converter returns the numeric
box `{left:72, bottom:-144, right:216, top:-72}` rather than failing. -/
theorem c4_no_geometry_check_witness :
    rectToPdfPoints ⟨"w4", 2, 1, 1, 2, 1, RectUnit.inch, none, none⟩ ⟨612, 0⟩ =
      { left := 72, bottom := -144, right := 216, top := -72 } := by
  have h := (c4_no_geometry_check ⟨"w4", 2, 1, 1, 2, 1, RectUnit.inch, none, none⟩
    ⟨612, 0⟩ rfl).1 rfl
  rw [h]
  norm_num [PdfBox.mk.injEq]

/-- C6: for every rectangle, page size and viewport transform (an arbitrary
function from page-space points to pixel points), `rectToViewport` maps the
two opposite corners `(left, top)` and `(right, bottom)` independently and
returns their axis-aligned bounding box: `left`/`top` are the minima of the
mapped coordinates and `width`/`height` their absolute differences, hence
always non-negative. -/
theorem c6_viewport_bbox (rect : BBoxRect) (convert : ℚ → ℚ → ℚ × ℚ)
    (pageSize : PageSize) :
    0 ≤ (rectToViewport rect convert pageSize).width ∧
    0 ≤ (rectToViewport rect convert pageSize).height ∧
    (rectToViewport rect convert pageSize).left =
      min (convert (rectToPdfPoints rect pageSize).left (rectToPdfPoints rect pageSize).top).1
        (convert (rectToPdfPoints rect pageSize).right (rectToPdfPoints rect pageSize).bottom).1 ∧
    (rectToViewport rect convert pageSize).top =
      min (convert (rectToPdfPoints rect pageSize).left (rectToPdfPoints rect pageSize).top).2
        (convert (rectToPdfPoints rect pageSize).right (rectToPdfPoints rect pageSize).bottom).2 ∧
    (rectToViewport rect convert pageSize).width =
      |(convert (rectToPdfPoints rect pageSize).right (rectToPdfPoints rect pageSize).bottom).1 -
        (convert (rectToPdfPoints rect pageSize).left (rectToPdfPoints rect pageSize).top).1| ∧
    (rectToViewport rect convert pageSize).height =
      |(convert (rectToPdfPoints rect pageSize).right (rectToPdfPoints rect pageSize).bottom).2 -
        (convert (rectToPdfPoints rect pageSize).left (rectToPdfPoints rect pageSize).top).2| := by
  exact ⟨abs_nonneg _, abs_nonneg _, rfl, rfl, rfl, rfl⟩

/-- C5 counterexample: for a viewport transform that maps every page-space
point to `(NaN, NaN)`, `rectToViewport` does not fail with any
`ProjectionError` — it returns the pixel box
`{left: NaN, top: NaN, width: NaN, height: NaN}`, whose coordinates are all
non-finite. -/
theorem c5_counterexample :
    rectToViewportJS ⟨"t3", 1, 10, 20, 30, 40, RectUnit.pdf, none, none⟩
        (fun _ _ => (JSNum.nan, JSNum.nan)) ⟨612, 792⟩ =
      { left := JSNum.nan, top := JSNum.nan, width := JSNum.nan, height := JSNum.nan } ∧
    JSNum.isFinite JSNum.nan = false := by
  exact ⟨rfl, rfl⟩

/-- C5 amended: the projector has no finiteness check and no error path.
Whenever either mapped x-coordinate (resp. y-coordinate) is non-finite, the
returned box's `width` (resp. `height`) is itself non-finite — the non-finite
values propagate into the returned pixel box instead of raising an error. -/
theorem c5_nonfinite_propagates (rect : BBoxRect)
    (convert : ℚ → ℚ → JSNum × JSNum) (pageSize : PageSize) :
    (((convert (rectToPdfPoints rect pageSize).left (rectToPdfPoints rect pageSize).top).1.isFinite &&
        (convert (rectToPdfPoints rect pageSize).right (rectToPdfPoints rect pageSize).bottom).1.isFinite) = false →
      (rectToViewportJS rect convert pageSize).width.isFinite = false) ∧
    (((convert (rectToPdfPoints rect pageSize).left (rectToPdfPoints rect pageSize).top).2.isFinite &&
        (convert (rectToPdfPoints rect pageSize).right (rectToPdfPoints rect pageSize).bottom).2.isFinite) = false →
      (rectToViewportJS rect convert pageSize).height.isFinite = false) := by
  constructor
  · intro h
    show ((JSNum.sub _ _).abs).isFinite = false
    generalize (convert (rectToPdfPoints rect pageSize).left (rectToPdfPoints rect pageSize).top).1 = a at h
    generalize (convert (rectToPdfPoints rect pageSize).right (rectToPdfPoints rect pageSize).bottom).1 = b at h
    cases a <;> cases b <;> simp_all [JSNum.sub, JSNum.abs, JSNum.isFinite]
  · intro h
    show ((JSNum.sub _ _).abs).isFinite = false
    generalize (convert (rectToPdfPoints rect pageSize).left (rectToPdfPoints rect pageSize).top).2 = a at h
    generalize (convert (rectToPdfPoints rect pageSize).right (rectToPdfPoints rect pageSize).bottom).2 = b at h
    cases a <;> cases b <;> simp_all [JSNum.sub, JSNum.abs, JSNum.isFinite]

/-- C5 amended witness: instantiating the propagation theorem at a transform
that sends every point to `(+Infinity, NaN)` — the returned box's width and
height are non-finite. -/
theorem c5_nonfinite_propagates_witness :
    (rectToViewportJS ⟨"t3", 1, 10, 20, 30, 40, RectUnit.pdf, none, none⟩
        (fun _ _ => (JSNum.posInf, JSNum.nan)) ⟨612, 792⟩).width.isFinite = false ∧
    (rectToViewportJS ⟨"t3", 1, 10, 20, 30, 40, RectUnit.pdf, none, none⟩
        (fun _ _ => (JSNum.posInf, JSNum.nan)) ⟨612, 792⟩).height.isFinite = false := by
  have h := c5_nonfinite_propagates ⟨"t3", 1, 10, 20, 30, 40, RectUnit.pdf, none, none⟩
    (fun _ _ => (JSNum.posInf, JSNum.nan)) ⟨612, 792⟩
  exact ⟨h.1 (by decide), h.2 (by decide)⟩

theorem JSNum.min2_fin (a b : ℚ) : JSNum.min2 (.fin a) (.fin b) = .fin (min a b) := rfl

theorem JSNum.max2_fin (a b : ℚ) : JSNum.max2 (.fin a) (.fin b) = .fin (max a b) := rfl

theorem JSNum.sub_fin (a b : ℚ) : JSNum.sub (.fin a) (.fin b) = .fin (a - b) := rfl

/-- A word is emitted by the ingestion loop exactly when its `polygon`
field is an array (arrays are always truthy, so the truthiness clause of the
guard never skips an array). -/
theorem parseWord_isSome (pageCtx w : JSVal) :
    (parseWord pageCtx w).isSome = (jsGetField w "polygon").isArr := by
  unfold parseWord
  cases h : jsGetField w "polygon" <;> simp [jsTruthy, JSVal.isArr]

/-- C7 counterexample: `parseUploadedAzureJson` is not total on untyped
documents, and does not skip short array polygons. A document whose
`analysisResult` is the number 5 makes it throw, and a document with a
single word whose polygon is the 3-element array `[1,1,1]` yields one
emitted rectangle with NaN coordinates (the word is not skipped). -/
theorem c7_counterexample :
    parseUploadedAzureJson docNonIterable = .error () ∧
    parseUploadedAzureJson docShortPolygon =
      .ok [{ page := .num 1, x := .nan, y := .nan, width := .nan, height := .nan,
             unit := RectUnit.inch, label := .undefined }] := by
  exact ⟨rfl, rfl⟩

/-- C7 amended: within one word list, exactly the words whose `polygon`
field is an array are emitted (in particular a word's malformed sibling is
skipped silently while the word itself is still emitted) — but the polygon's
length is not checked, and a non-array container higher up throws. -/
theorem c7_word_guard (pageCtx : JSVal) (ws : List JSVal) :
    (parseWords pageCtx ws).length =
      ws.countP (fun w => (jsGetField w "polygon").isArr) := by
  induction ws with
  | nil => rfl
  | cons w ws ih =>
    simp only [parseWords, List.filterMap_cons, List.countP_cons] at ih ⊢
    cases o : parseWord pageCtx w with
    | none =>
      have hguard : (jsGetField w "polygon").isArr = false := by
        have h := parseWord_isSome pageCtx w
        rw [o] at h
        simpa using h.symm
      simp [hguard, ih]
    | some r =>
      have hguard : (jsGetField w "polygon").isArr = true := by
        have h := parseWord_isSome pageCtx w
        rw [o] at h
        simpa using h.symm
      simp [hguard, ih]

/-- C8 counterexample: in a match group with no `page` field whose first
word has `page: 5`, a later word with no page of its own is emitted with
page 5 (the group page context falls back to the first word's page), not
with the claimed default of page 1. -/
theorem c8_counterexample :
    (parseUploadedAzureJson docPageFallback).map (fun l => l.map ParsedRect.page) =
      .ok [.num 5, .num 5] ∧ JSVal.num 5 ≠ JSVal.num 1 := by
  refine ⟨rfl, fun h => ?_⟩
  injection h with h'
  exact absurd h' (by norm_num)

/-- C8 amended: an accepted word — one whose polygon is an array whose first
8 entries are numbers — is emitted with the axis-aligned bounding box of the
four corner points (x from entries 0,2,4,6 and y from entries 1,3,5,7), unit
fixed to `inch`, label from `w.name`, and page `w.page ?? pageCtx ?? 1`,
where `pageCtx` is the group page context `m.page ?? m.words[0].page`
computed in `parseMatch`. -/
theorem c8_accepted_word_bbox (pageCtx w : JSVal) (ps rest : List JSVal)
    (a1 b1 a2 b2 a3 b3 a4 b4 : ℚ)
    (hp : jsGetField w "polygon" = .arr ps)
    (hps : ps = [.num a1, .num b1, .num a2, .num b2, .num a3, .num b3, .num a4, .num b4]
      ++ rest) :
    parseWord pageCtx w = some
      { page := jsCoalesce (jsGetField w "page") (jsCoalesce pageCtx (.num 1))
        x := .fin (min (min (min a1 a2) a3) a4)
        y := .fin (min (min (min b1 b2) b3) b4)
        width := .fin (max (max (max a1 a2) a3) a4 - min (min (min a1 a2) a3) a4)
        height := .fin (max (max (max b1 b2) b3) b4 - min (min (min b1 b2) b3) b4)
        unit := RectUnit.inch
        label := jsGetField w "name" } := by
  subst hps
  unfold parseWord
  rw [hp]
  simp [jsTruthy, JSVal.isArr, jsIndex, jsToNumber, List.getD,
    JSNum.min2_fin, JSNum.max2_fin, JSNum.sub_fin]

/-- C8 amended witness: the word with polygon `[1,1,3,1,3,2,1,2]` and
`page: 1` is emitted as the single rectangle
`{x=1, y=1, width=2, height=1, unit=inch, page=1}`. -/
theorem c8_accepted_word_bbox_witness :
    parseWord (.num 1)
      (.obj [("page", .num 1), ("polygon",
        .arr [.num 1, .num 1, .num 3, .num 1, .num 3, .num 2, .num 1, .num 2])]) =
      some { page := .num 1, x := .fin 1, y := .fin 1, width := .fin 2, height := .fin 1,
             unit := RectUnit.inch, label := .undefined } := by
  have h := c8_accepted_word_bbox (.num 1)
    (.obj [("page", .num 1), ("polygon",
      .arr [.num 1, .num 1, .num 3, .num 1, .num 3, .num 2, .num 1, .num 2])])
    [.num 1, .num 1, .num 3, .num 1, .num 3, .num 2, .num 1, .num 2] []
    1 1 3 1 3 2 1 2 rfl (by simp)
  rw [h]
  norm_num [ParsedRect.mk.injEq, min_def, max_def]
  exact ⟨rfl, rfl⟩

/-- Every error the body of `polygonsToRects` throws carries the one message
`"Polygon must have 4 points (8 values)"`. -/
theorem polygonToRect_error_msg (u : RectUnit) (idx : Nat) (it : PolyItem) (e : String)
    (h : polygonToRect u idx it = .error e) :
    e = "Polygon must have 4 points (8 values)" := by
  unfold polygonToRect at h
  cases hp : it.polygon with
  | none =>
    rw [hp] at h
    injection h with h'
    exact h'.symm
  | some p =>
    rw [hp] at h
    by_cases hl : p.length < 8
    · simp [hl] at h
      exact h.symm
    · simp [hl] at h

/-- The index-carrying recursion underlying `polygonsToRects`: if any item
in the remaining list has a missing or short polygon, the whole call throws
the polygon error. -/
theorem polygonsToRectsFrom_error (u : RectUnit) (idx : Nat) (items : List PolyItem)
    (h : ∃ it ∈ items, it.polygon = none ∨ ∃ p, it.polygon = some p ∧ p.length < 8) :
    polygonsToRectsFrom u idx items = .error "Polygon must have 4 points (8 values)" := by
  induction items generalizing idx with
  | nil => simp at h
  | cons it rest ih =>
    obtain ⟨jt, hmem, hbad⟩ := h
    rcases List.mem_cons.mp hmem with rfl | hmem'
    · rcases hbad with hnone | ⟨p, hp, hlen⟩
      · simp [polygonsToRectsFrom, polygonToRect, hnone, Bind.bind, Except.bind]
      · simp [polygonsToRectsFrom, polygonToRect, hp, hlen, Bind.bind, Except.bind]
    · cases hc : polygonToRect u idx it with
      | error e =>
        rw [polygonToRect_error_msg u idx it e hc] at hc
        simp [polygonsToRectsFrom, hc, Bind.bind, Except.bind]
      | ok r =>
        simp [polygonsToRectsFrom, hc, ih (idx + 1) ⟨jt, hmem', hbad⟩,
          Bind.bind, Except.bind]

/-- C9: for every item list containing an item whose polygon is missing or
has fewer than 8 values, `polygonsToRects` throws the (uncaught)
`"Polygon must have 4 points (8 values)"` error: no rectangle list at all is
returned, in particular none for such an item. -/
theorem c9_short_polygon_throws (items : List PolyItem) (u : RectUnit)
    (h : ∃ it ∈ items, it.polygon = none ∨ ∃ p, it.polygon = some p ∧ p.length < 8) :
    polygonsToRects items u = .error "Polygon must have 4 points (8 values)" :=
  polygonsToRectsFrom_error u 0 items h

/-- C9 witness: a direct call on a single item with the 3-value polygon
`[1,1,1]` throws the polygon error. -/
theorem c9_short_polygon_throws_witness :
    polygonsToRects [⟨1, some [1, 1, 1], none⟩] RectUnit.inch =
      .error "Polygon must have 4 points (8 values)" :=
  c9_short_polygon_throws [⟨1, some [1, 1, 1], none⟩] RectUnit.inch
    ⟨⟨1, some [1, 1, 1], none⟩, by simp, Or.inr ⟨[1, 1, 1], rfl, by norm_num⟩⟩

/-- C10 counterexample: a patch that itself contains an `id` field does
change the matched record's id — `update("a", {id: "b"})` turns the stored
id `"a"` into `"b"`. -/
theorem c10_counterexample :
    (updateRect [⟨"a", 1, 1, 1, 1, 1, RectUnit.inch, none, none⟩] "a"
        { id := some "b" }).map BBoxRect.id = ["b"] ∧ "b" ≠ "a" := by
  exact ⟨rfl, by decide⟩

/-- C10 amended: for every store state, id and patch, provided the patch
does not itself carry an `id` field, `updateRect` leaves the id of every
stored rectangle unchanged. -/
theorem c10_update_preserves_ids (rects : List BBoxRect) (rid : String)
    (patch : RectPatch) (hid : patch.id = none) :
    (updateRect rects rid patch).map BBoxRect.id = rects.map BBoxRect.id := by
  induction rects with
  | nil => rfl
  | cons r rs ih =>
    simp only [updateRect, List.map_cons] at ih ⊢
    rw [ih]
    by_cases h : r.id = rid
    · simp [h, applyPatch, hid]
    · simp [h]

/-- C10 amended witness: patching only the page of the rectangle with id
`"a"` keeps the stored ids `["a"]`. -/
theorem c10_update_preserves_ids_witness :
    (updateRect [⟨"a", 1, 1, 1, 1, 1, RectUnit.inch, none, none⟩] "a"
        { page := some 2 }).map BBoxRect.id = ["a"] := by
  rw [c10_update_preserves_ids _ _ _ rfl]
  rfl
